import Mathlib

/-!
Shallow embedding of the ToDoDemo backend's authentication/authorization core
(TypeScript/Express/Prisma) in Lean 4.

Embedded components and their sources:
* password utility        — src/src/utils/password.util.ts (PasswordUtil)
* token utility           — src/unnamed/part_011 (JWTUtil)
* user data-access layer  — user.service.ts (UserService)
* auth service            — src/src/services/auth.service.ts (AuthService)
* auth middleware         — src/src/middleware/auth.middleware.ts (authenticateToken)
* user controller helpers — src/src/controllers/user.controller.ts (excludePassword et al.)
* update validation schema— src/src/utils/validation.schemas.ts (userUpdateSchema)

External collaborators (bcrypt, the jsonwebtoken library's cryptographic core
and Prisma's database engine) are modelled as oracles/parameters; everything
else is translated directly from the source.  JavaScript exceptions are
modelled as values of type Thrown (an Error instance carries name, message and
an optional Prisma error code; any other thrown value is nonExc); JavaScript
string falsiness (empty string is falsy) is modelled explicitly at each use.
-/

/-- A JavaScript Error instance: its name, message, and (for Prisma known
request errors) its code property. -/
structure ErrInfo where
  name : String
  message : String
  code : Option String := none
deriving DecidableEq, Repr

/-- A thrown JavaScript value: either an Error instance or a non-exception
value (the latter is what the middleware's instanceof check rejects). -/
inductive Thrown where
  | exc (e : ErrInfo)
  | nonExc
deriving DecidableEq, Repr

/-- A row of the Prisma User table (prisma/schema: id @id, email @unique). -/
structure DbUser where
  id : String
  name : String
  email : String
  password : String
  createdAt : Nat
  updatedAt : Nat
deriving DecidableEq, Repr

/-- JWT payload carried by tokens: { userId, email } (jwt.util). -/
structure JWTPayload where
  userId : String
  email : String
deriving DecidableEq, Repr

/-- Outcome of the external jsonwebtoken jwt.verify call on a given token and
secret: successful decode, TokenExpiredError, JsonWebTokenError
(malformed/invalid signature), or any other thrown value. -/
inductive JwtVerifyRaw where
  | ok (p : JWTPayload)
  | expired
  | invalid
  | other (t : Thrown)
deriving DecidableEq, Repr

namespace PasswordUtil

/-- PasswordUtil.hashPassword: throws on an empty password, otherwise defers
to bcrypt.hash (modelled by the oracle hashFn). -/
def hashPassword (hashFn : String → String) (password : String) : Except ErrInfo String :=
  if password = "" then
    .error ⟨"Error", "Password must be a non-empty string", none⟩
  else
    .ok (hashFn password)

/-- PasswordUtil.verifyPassword: throws on an empty password or empty hash,
otherwise defers to bcrypt.compare (modelled by the oracle bcryptCompare;
bcrypt.compare returns false, rather than raising, on a malformed hash). -/
def verifyPassword (bcryptCompare : String → String → Bool) (password hashedPassword : String) :
    Except ErrInfo Bool :=
  if password = "" then
    .error ⟨"Error", "Password must be a non-empty string", none⟩
  else if hashedPassword = "" then
    .error ⟨"Error", "Hashed password must be a non-empty string", none⟩
  else
    .ok (bcryptCompare password hashedPassword)

end PasswordUtil

namespace JWTUtil

/-- JWTUtil.generateToken: requires the JWT_SECRET configuration (a missing or
empty secret is falsy in JS) and a payload with non-empty userId and email;
jwt.sign itself is the oracle sign. -/
def generateToken (secret : Option String) (sign : JWTPayload → String → String)
    (payload : JWTPayload) : Except ErrInfo String :=
  match secret with
  | none => .error ⟨"Error", "JWT_SECRET environment variable is required", none⟩
  | some s =>
    if s = "" then
      .error ⟨"Error", "JWT_SECRET environment variable is required", none⟩
    else if payload.userId = "" ∨ payload.email = "" then
      .error ⟨"Error", "Payload must contain userId and email", none⟩
    else
      .ok (sign payload s)

/-- JWTUtil.verifyToken: secret/emptiness guards, then jwt.verify (whose
outcome on this token/secret pair is the parameter outcome); a decoded payload
missing userId or email raises "Invalid token payload" (rethrown unchanged by
the catch); TokenExpiredError maps to "Token expired", JsonWebTokenError to
"Invalid token", anything else is rethrown as-is. -/
def verifyToken (secret : Option String) (outcome : JwtVerifyRaw) (token : String) :
    Except Thrown JWTPayload :=
  match secret with
  | none => .error (.exc ⟨"Error", "JWT_SECRET environment variable is required", none⟩)
  | some s =>
    if s = "" then
      .error (.exc ⟨"Error", "JWT_SECRET environment variable is required", none⟩)
    else if token = "" then
      .error (.exc ⟨"Error", "Token must be a non-empty string", none⟩)
    else
      match outcome with
      | .ok p =>
        if p.userId = "" ∨ p.email = "" then
          .error (.exc ⟨"Error", "Invalid token payload", none⟩)
        else
          .ok p
      | .expired => .error (.exc ⟨"Error", "Token expired", none⟩)
      | .invalid => .error (.exc ⟨"Error", "Invalid token", none⟩)
      | .other t => .error t

/-- JWTUtil.isTokenExpired: true exactly when verifyToken throws an Error
instance whose message is "Token expired"; false on success and on any other
failure. -/
def isTokenExpired (secret : Option String) (outcome : JwtVerifyRaw) (token : String) : Bool :=
  match verifyToken secret outcome token with
  | .ok _ => false
  | .error (.exc e) => e.message == "Token expired"
  | .error .nonExc => false

end JWTUtil

/-- UserNotFoundError (user.service.ts). -/
def userNotFoundErr (identifier : String) : ErrInfo :=
  ⟨"UserNotFoundError", "User not found: " ++ identifier, none⟩

/-- UserAlreadyExistsError (user.service.ts). -/
def userAlreadyExistsErr (email : String) : ErrInfo :=
  ⟨"UserAlreadyExistsError", "User with email " ++ email ++ " already exists", none⟩

/-- UserServiceError (user.service.ts); the wrapped cause is not observable
through the error taxonomy, so only the message is kept. -/
def userServiceErr (message : String) : ErrInfo :=
  ⟨"UserServiceError", message, none⟩

/-- AuthServiceError (auth.service.ts). -/
def authServiceErr (message : String) : ErrInfo :=
  ⟨"AuthServiceError", message, none⟩

/-- InvalidCredentialsError (auth.service.ts): a fixed name and a fixed
message, with no argument distinguishing its two raise sites. -/
def invalidCredentialsErr : ErrInfo :=
  ⟨"InvalidCredentialsError", "Invalid email or password", none⟩

/-- Prisma's P2002 unique-constraint-violation error on the email column. -/
def prismaP2002 : Thrown :=
  .exc ⟨"PrismaClientKnownRequestError", "Unique constraint failed on the fields: (email)",
    some "P2002"⟩

/-- Prisma's P2025 record-not-found error. -/
def prismaP2025 (message : String) : Thrown :=
  .exc ⟨"PrismaClientKnownRequestError", message, some "P2025"⟩

/-!
The Prisma database engine is modelled semantically: the table is a list of
rows, id is the primary key and email carries a unique constraint (so at most
one row matches either).  Each call additionally takes a fault parameter: some
t means the engine fails by throwing t on this call (connection loss etc.),
none means the call reaches the table.
-/

/-- JavaScript String.prototype.toLowerCase (ASCII; e-mail addresses here are
ASCII). -/
def jsToLowerCase (s : String) : String :=
  String.mk (s.toList.map Char.toLower)

/-- JavaScript String.prototype.trim: strips leading and trailing
whitespace. -/
def jsTrim (s : String) : String :=
  String.mk (((s.toList.dropWhile Char.isWhitespace).reverse.dropWhile
    Char.isWhitespace).reverse)

/-- prisma.user.findUnique({ where: { id } }). -/
def prismaFindById (db : List DbUser) (id : String) : Option DbUser :=
  db.find? (fun u => u.id == id)

/-- prisma.user.findUnique({ where: { email } }) — an exact (case-sensitive)
unique-column lookup; lowercasing of the query happens in UserService. -/
def prismaFindByEmail (db : List DbUser) (email : String) : Option DbUser :=
  db.find? (fun u => u.email == email)

/-- prisma.user.create: enforces the unique constraint on email (P2002 on
violation), generates the id externally (parameter newId) and sets both
timestamps to the current time. -/
def prismaCreate (fault : Option Thrown) (db : List DbUser) (newId : String) (now : Nat)
    (name email password : String) : Except Thrown (DbUser × List DbUser) :=
  match fault with
  | some t => .error t
  | none =>
    if db.any (fun u => u.email == email) then
      .error prismaP2002
    else
      let u : DbUser := ⟨newId, name, email, password, now, now⟩
      .ok (u, db ++ [u])

/-- prisma.user.update({ where: { id }, data }): P2025 when the row is absent,
applies exactly the supplied fields, bumps updatedAt, and enforces the email
unique constraint (P2002) against every other row. -/
def prismaUpdate (fault : Option Thrown) (db : List DbUser) (id : String)
    (nm em pw : Option String) (now : Nat) : Except Thrown (DbUser × List DbUser) :=
  match fault with
  | some t => .error t
  | none =>
    match prismaFindById db id with
    | none => .error (prismaP2025 "Record to update not found.")
    | some u =>
      let u2 : DbUser :=
        { u with name := nm.getD u.name, email := em.getD u.email,
                 password := pw.getD u.password, updatedAt := now }
      if db.any (fun v => v.id != id && v.email == u2.email) then
        .error prismaP2002
      else
        .ok (u2, db.map (fun v => if v.id == id then u2 else v))

/-- prisma.user.delete({ where: { id } }): P2025 when the row is absent,
otherwise removes the row (id is the primary key, so at most one matches). -/
def prismaDelete (fault : Option Thrown) (db : List DbUser) (id : String) :
    Except Thrown (List DbUser) :=
  match fault with
  | some t => .error t
  | none =>
    match prismaFindById db id with
    | none => .error (prismaP2025 "Record to delete does not exist.")
    | some _ => .ok (db.filter (fun u => u.id != id))

/-- User registration input (validation.schemas.ts, UserRegistrationInput). -/
structure RegInput where
  name : String
  email : String
  password : String
deriving DecidableEq, Repr

/-- User login input (validation.schemas.ts, UserLoginInput). -/
structure LoginInput where
  email : String
  password : String
deriving DecidableEq, Repr

/-- Partial update input (validation.schemas.ts, UserUpdateInput): each field
may be absent. -/
structure UpdateInput where
  name : Option String := none
  email : Option String := none
  password : Option String := none
deriving DecidableEq, Repr

/-- JavaScript truthiness of an optional string field: present and non-empty
(used by the source's data.email && ... and spread-conditional patterns). -/
def optTruthy (o : Option String) : Option String :=
  match o with
  | some s => if s = "" then none else some s
  | none => none

namespace UserService

/-- UserService.findById: wraps any engine failure as UserServiceError. -/
def findById (fault : Option Thrown) (db : List DbUser) (id : String) :
    Except ErrInfo (Option DbUser) :=
  match fault with
  | some _ => .error (userServiceErr ("Failed to find user by ID: " ++ id))
  | none => .ok (prismaFindById db id)

/-- UserService.findByEmail: lowercases the query first; wraps any engine
failure as UserServiceError. -/
def findByEmail (fault : Option Thrown) (db : List DbUser) (email : String) :
    Except ErrInfo (Option DbUser) :=
  match fault with
  | some _ => .error (userServiceErr ("Failed to find user by email: " ++ email))
  | none => .ok (prismaFindByEmail db (jsToLowerCase email))

/-- The catch block of UserService.createUser: rethrows
UserAlreadyExistsError, maps a P2002-coded failure to UserAlreadyExistsError,
and wraps everything else as UserServiceError. -/
def createUserCatch (email : String) (t : Thrown) : ErrInfo :=
  match t with
  | .exc e =>
    if e.name = "UserAlreadyExistsError" then e
    else if e.code = some "P2002" then userAlreadyExistsErr email
    else userServiceErr "Failed to create user"
  | .nonExc => userServiceErr "Failed to create user"

/-- UserService.createUser: pre-checks uniqueness via findByEmail, hashes the
password, then inserts.  The check-then-act window is modelled by race: rows
committed by concurrent requests between the pre-check and the insert.  The
second component is the table after the call (the target table when the insert
ran, the pre-call table plus the race rows otherwise). -/
def createUser (findFault createFault : Option Thrown) (race : List DbUser)
    (hashFn : String → String) (newId : String) (now : Nat) (db : List DbUser)
    (data : RegInput) : (Except ErrInfo DbUser) × List DbUser :=
  match findByEmail findFault db data.email with
  | .error e => (.error (createUserCatch data.email (.exc e)), db ++ race)
  | .ok (some _) =>
    (.error (createUserCatch data.email (.exc (userAlreadyExistsErr data.email))), db ++ race)
  | .ok none =>
    match PasswordUtil.hashPassword hashFn data.password with
    | .error e => (.error (createUserCatch data.email (.exc e)), db ++ race)
    | .ok hashed =>
      match prismaCreate createFault (db ++ race) newId now data.name data.email hashed with
      | .error t => (.error (createUserCatch data.email t), db ++ race)
      | .ok (u, db2) => (.ok u, db2)

/-- The catch block of UserService.updateUser: rethrows UserNotFoundError and
UserAlreadyExistsError, maps P2002 to UserAlreadyExistsError on
data.email || 'unknown', maps P2025 to UserNotFoundError, wraps the rest. -/
def updateUserCatch (id : String) (data : UpdateInput) (t : Thrown) : ErrInfo :=
  match t with
  | .exc e =>
    if e.name = "UserNotFoundError" ∨ e.name = "UserAlreadyExistsError" then e
    else if e.code = some "P2002" then
      userAlreadyExistsErr ((optTruthy data.email).getD "unknown")
    else if e.code = some "P2025" then userNotFoundErr id
    else userServiceErr ("Failed to update user: " ++ id)
  | .nonExc => userServiceErr ("Failed to update user: " ++ id)

/-- UserService.updateUser: existence pre-check, email-conflict check only
when a truthy email differs from the current one, password re-hash when a
truthy password is supplied, then a partial prisma update built with the
source's truthiness-guarded spreads. -/
def updateUser (findFault emailFault updFault : Option Thrown) (hashFn : String → String)
    (now : Nat) (db : List DbUser) (id : String) (data : UpdateInput) :
    (Except ErrInfo DbUser) × List DbUser :=
  match findById findFault db id with
  | .error e => (.error (updateUserCatch id data (.exc e)), db)
  | .ok none => (.error (updateUserCatch id data (.exc (userNotFoundErr id))), db)
  | .ok (some existing) =>
    let conflict : Except ErrInfo Unit :=
      match data.email with
      | some e =>
        if e ≠ "" ∧ e ≠ existing.email then
          match findByEmail emailFault db e with
          | .error err => .error err
          | .ok (some _) => .error (userAlreadyExistsErr e)
          | .ok none => .ok ()
        else .ok ()
      | none => .ok ()
    match conflict with
    | .error e => (.error (updateUserCatch id data (.exc e)), db)
    | .ok () =>
      let hashedPw : Except ErrInfo (Option String) :=
        match optTruthy data.password with
        | some p =>
          match PasswordUtil.hashPassword hashFn p with
          | .error e => .error e
          | .ok h => .ok (some h)
        | none => .ok none
      match hashedPw with
      | .error e => (.error (updateUserCatch id data (.exc e)), db)
      | .ok pw =>
        match prismaUpdate updFault db id (optTruthy data.name) (optTruthy data.email) pw now with
        | .error t => (.error (updateUserCatch id data t), db)
        | .ok (u, db2) => (.ok u, db2)

/-- UserService.deleteUser: P2025 from the engine becomes UserNotFoundError,
any other failure becomes UserServiceError. -/
def deleteUser (fault : Option Thrown) (db : List DbUser) (id : String) :
    (Except ErrInfo Unit) × List DbUser :=
  match prismaDelete fault db id with
  | .ok db2 => (.ok (), db2)
  | .error (.exc e) =>
    if e.code = some "P2025" then (.error (userNotFoundErr id), db)
    else (.error (userServiceErr ("Failed to delete user: " ++ id)), db)
  | .error .nonExc => (.error (userServiceErr ("Failed to delete user: " ++ id)), db)

/-- UserService.findAll: prisma.user.findMany ordered by createdAt
descending (newest first); engine failure becomes UserServiceError. -/
def findAll (fault : Option Thrown) (db : List DbUser) : Except ErrInfo (List DbUser) :=
  match fault with
  | some _ => .error (userServiceErr "Failed to retrieve users")
  | none => .ok (db.mergeSort (fun a b => b.createdAt ≤ a.createdAt))

end UserService

/-- The rest-spread serialization of a User row as returned by Prisma: the
JSON object's key/value list (timestamps rendered as strings). -/
def userObj (u : DbUser) : List (String × String) :=
  [("id", u.id), ("name", u.name), ("email", u.email), ("password", u.password),
   ("createdAt", toString u.createdAt), ("updatedAt", toString u.updatedAt)]

/-- const \x7b password, ...userWithoutPassword \x7d = user — the rest-spread
that drops exactly the password key (auth.service.ts and
user.controller.ts excludePassword). -/
def excludePassword (u : DbUser) : List (String × String) :=
  (userObj u).filter (fun kv => kv.fst != "password")

/-- AuthResponse (auth.service.ts): a token and the password-stripped user
object. -/
structure AuthResponse where
  token : String
  user : List (String × String)
deriving DecidableEq, Repr

namespace AuthService

/-- AuthService.register: delegates to UserService.createUser, issues a token
on the new user's id/email, strips the password; the catch rethrows
UserAlreadyExistsError and wraps everything else as
AuthServiceError("Registration failed").  The second component is the user
table after the call — the catch performs no rollback. -/
def register (findFault createFault : Option Thrown) (race : List DbUser)
    (secret : Option String) (sign : JWTPayload → String → String)
    (hashFn : String → String) (newId : String) (now : Nat) (db : List DbUser)
    (data : RegInput) : (Except ErrInfo AuthResponse) × List DbUser :=
  match UserService.createUser findFault createFault race hashFn newId now db data with
  | (.error e, db2) =>
    if e.name = "UserAlreadyExistsError" then (.error e, db2)
    else (.error (authServiceErr "Registration failed"), db2)
  | (.ok u, db2) =>
    match JWTUtil.generateToken secret sign ⟨u.id, u.email⟩ with
    | .error _ => (.error (authServiceErr "Registration failed"), db2)
    | .ok token => (.ok ⟨token, excludePassword u⟩, db2)

/-- AuthService.login: email lookup (absent → InvalidCredentialsError),
password verification (mismatch → InvalidCredentialsError), token issuance;
the catch rethrows InvalidCredentialsError and wraps every other failure as
AuthServiceError("Login failed"). -/
def login (findFault : Option Thrown) (bcryptCompare : String → String → Bool)
    (secret : Option String) (sign : JWTPayload → String → String) (db : List DbUser)
    (data : LoginInput) : Except ErrInfo AuthResponse :=
  match UserService.findByEmail findFault db data.email with
  | .error _ => .error (authServiceErr "Login failed")
  | .ok none => .error invalidCredentialsErr
  | .ok (some user) =>
    match PasswordUtil.verifyPassword bcryptCompare data.password user.password with
    | .error _ => .error (authServiceErr "Login failed")
    | .ok false => .error invalidCredentialsErr
    | .ok true =>
      match JWTUtil.generateToken secret sign ⟨user.id, user.email⟩ with
      | .error _ => .error (authServiceErr "Login failed")
      | .ok token => .ok ⟨token, excludePassword user⟩

/-- AuthService.validateToken: verifies the token, then re-checks that the
referenced user still exists; the catch rethrows AuthServiceError (so "User no
longer exists" survives) and wraps any other failure as
AuthServiceError("Token validation failed"). -/
def validateToken (secret : Option String) (outcome : JwtVerifyRaw)
    (findFault : Option Thrown) (db : List DbUser) (token : String) :
    Except ErrInfo JWTPayload :=
  match JWTUtil.verifyToken secret outcome token with
  | .error (.exc e) =>
    if e.name = "AuthServiceError" then .error e
    else .error (authServiceErr "Token validation failed")
  | .error .nonExc => .error (authServiceErr "Token validation failed")
  | .ok payload =>
    match UserService.findById findFault db payload.userId with
    | .error _ => .error (authServiceErr "Token validation failed")
    | .ok none => .error (authServiceErr "User no longer exists")
    | .ok (some _) => .ok payload

end AuthService

/-- Outcome of the authentication middleware on one request: an error
response with its HTTP status, code and message, or proceeding to the next
handler with the decoded payload attached to the request. -/
inductive MwResult where
  | fail (status : Nat) (code : String) (message : String)
  | proceed (payload : JWTPayload)
deriving DecidableEq, Repr

/-- JavaScript String.prototype.split(" ") on the character list: splits at
every space, keeping empty pieces. -/
def jsSplitSpaceAux : List Char → List Char → List String
  | [], acc => [String.mk acc.reverse]
  | c :: rest, acc =>
    if c = ' ' then String.mk acc.reverse :: jsSplitSpaceAux rest []
    else jsSplitSpaceAux rest (c :: acc)

/-- JavaScript String.prototype.split(" "): authHeader.split(' ') in
auth.middleware.ts. -/
def jsSplitSpace (s : String) : List String :=
  jsSplitSpaceAux s.toList []

/-- Substring occurrence on character lists. -/
def hasSubstring (needle : List Char) : List Char → Bool
  | [] => needle.isEmpty
  | c :: rest => needle.isPrefixOf (c :: rest) || hasSubstring needle rest

/-- JavaScript String.prototype.includes(needle):
error.message.includes('JWT_SECRET') in auth.middleware.ts. -/
def strIncludes (haystack needle : String) : Bool :=
  hasSubstring needle.toList haystack.toList

/-- authenticateToken (auth.middleware.ts).  The Authorization header is
Option String (a present-but-empty header is falsy, like an absent one); the
outcome of the jwt.verify call on the extracted token is the parameter
outcome. -/
def authenticateToken (secret : Option String) (outcome : JwtVerifyRaw)
    (authHeader : Option String) : MwResult :=
  match authHeader with
  | none => .fail 401 "MISSING_TOKEN" "Authorization header is required"
  | some h =>
    if h = "" then .fail 401 "MISSING_TOKEN" "Authorization header is required"
    else
      let parts := jsSplitSpace h
      if parts.length ≠ 2 ∨ parts.head? ≠ some "Bearer" then
        .fail 401 "INVALID_TOKEN_FORMAT" "Authorization header must be in format: Bearer <token>"
      else
        let token := (parts.getD 1 "")
        if token = "" then .fail 401 "MISSING_TOKEN" "Token is required"
        else
          match JWTUtil.verifyToken secret outcome token with
          | .ok decoded => .proceed decoded
          | .error (.exc e) =>
            if e.message = "Token expired" then .fail 401 "TOKEN_EXPIRED" e.message
            else if e.message = "Invalid token" then .fail 401 "INVALID_TOKEN" e.message
            else if strIncludes e.message "JWT_SECRET" then .fail 500 "SERVER_ERROR" e.message
            else .fail 401 "INVALID_TOKEN" e.message
          | .error .nonExc =>
            .fail 500 "SERVER_ERROR" "Internal server error during authentication"

/-- The full application state a request runs against: the user table and the
process-wide signing secret.  The middleware is given the whole state; by
construction of the source (auth.middleware.ts imports only JWTUtil) its
result reads only the secret. -/
structure AppState where
  db : List DbUser
  secret : Option String
deriving Repr

/-- The authentication middleware as run inside the application: same code,
handed the full state. -/
def authenticateTokenApp (st : AppState) (outcome : JwtVerifyRaw)
    (authHeader : Option String) : MwResult :=
  authenticateToken st.secret outcome authHeader

/-- Outcome of a user-controller endpoint (user.controller.ts): a success
response whose data is a list of serialized user objects (a singleton for the
single-user endpoints), or an error response with status and code. -/
inductive CtrlResult where
  | okData (status : Nat) (data : List (List (String × String)))
  | failc (status : Nat) (code : String)
deriving DecidableEq, Repr

namespace UserController

/-- GET /users — UserController.getAllUsers: findAll, strip passwords. -/
def getAllUsers (fault : Option Thrown) (db : List DbUser) : CtrlResult :=
  match UserService.findAll fault db with
  | .error e =>
    if e.name = "UserServiceError" then .failc 500 "USER_SERVICE_ERROR"
    else .failc 500 "SERVER_ERROR"
  | .ok users => .okData 200 (users.map excludePassword)

/-- GET /users/:id — UserController.getUserById. -/
def getUserById (fault : Option Thrown) (db : List DbUser) (id : String) : CtrlResult :=
  if id = "" then .failc 400 "INVALID_USER_ID"
  else
    match UserService.findById fault db id with
    | .error e =>
      if e.name = "UserServiceError" then .failc 500 "USER_SERVICE_ERROR"
      else .failc 500 "SERVER_ERROR"
    | .ok none => .failc 404 "USER_NOT_FOUND"
    | .ok (some u) => .okData 200 [excludePassword u]

/-- POST /users — UserController.createUser (the controller discards the new
table state into the shared connection; only the response is returned here). -/
def createUser (findFault createFault : Option Thrown) (race : List DbUser)
    (hashFn : String → String) (newId : String) (now : Nat) (db : List DbUser)
    (data : RegInput) : CtrlResult :=
  match (UserService.createUser findFault createFault race hashFn newId now db data).fst with
  | .error e =>
    if e.name = "UserAlreadyExistsError" then .failc 409 "USER_ALREADY_EXISTS"
    else if e.name = "UserServiceError" then .failc 500 "USER_SERVICE_ERROR"
    else .failc 500 "SERVER_ERROR"
  | .ok u => .okData 201 [excludePassword u]

/-- PUT /users/:id — UserController.updateUser. -/
def updateUser (findFault emailFault updFault : Option Thrown) (hashFn : String → String)
    (now : Nat) (db : List DbUser) (id : String) (data : UpdateInput) : CtrlResult :=
  if id = "" then .failc 400 "INVALID_USER_ID"
  else
    match (UserService.updateUser findFault emailFault updFault hashFn now db id data).fst with
    | .error e =>
      if e.name = "UserNotFoundError" then .failc 404 "USER_NOT_FOUND"
      else if e.name = "UserAlreadyExistsError" then .failc 409 "USER_ALREADY_EXISTS"
      else if e.name = "UserServiceError" then .failc 500 "USER_SERVICE_ERROR"
      else .failc 500 "SERVER_ERROR"
    | .ok u => .okData 200 [excludePassword u]

end UserController

/-- The password complexity regex of validation.schemas.ts:
at least 8 characters (the JS dot excludes line terminators), one lowercase
letter, one uppercase letter and one ASCII digit. -/
def passwordRegexOk (p : String) : Bool :=
  p.toList.length ≥ 8 && p.toList.all (fun c => c ≠ Char.ofNat 10 ∧ c ≠ Char.ofNat 13) &&
    p.toList.any Char.isLower && p.toList.any Char.isUpper && p.toList.any Char.isDigit

/-- userUpdateSchema (validation.schemas.ts): every field optional with its
own checks (name trimmed then 2..50 chars; email trimmed, lowercased, then
format-checked by the external zod email validator, the oracle emailFormatOk;
password min 8 then the complexity regex), followed by the refinement that at
least one key was provided.  Zod reports a list of issues; only the first
failing message is kept here. -/
def userUpdateSchemaParse (emailFormatOk : String → Bool) (d : UpdateInput) :
    Except String UpdateInput :=
  match (match d.name with
    | none => Except.ok (none : Option String)
    | some n =>
      let t := jsTrim n
      if t.toList.length < 2 then .error "Name must be at least 2 characters long"
      else if t.toList.length > 50 then .error "Name must not exceed 50 characters"
      else .ok (some t)) with
  | .error msg => .error msg
  | .ok nameV =>
    match (match d.email with
      | none => Except.ok (none : Option String)
      | some e =>
        let t := jsToLowerCase (jsTrim e)
        if emailFormatOk t then .ok (some t) else .error "Invalid email format") with
    | .error msg => .error msg
    | .ok emailV =>
      match (match d.password with
        | none => Except.ok (none : Option String)
        | some p =>
          if p.toList.length < 8 then .error "Password must be at least 8 characters long"
          else if ¬ passwordRegexOk p then
            .error
              "Password must contain at least one lowercase letter, one uppercase letter, and one digit"
          else .ok (some p)) with
      | .error msg => .error msg
      | .ok passwordV =>
        if d.name.isSome ∨ d.email.isSome ∨ d.password.isSome then
          .ok ⟨nameV, emailV, passwordV⟩
        else .error "At least one field must be provided for update"

/-!  Theorems  -/

/-- C7: isTokenExpired returns true exactly when verification fails with the
"expired" kind (an Error whose message is "Token expired"), and false in every
other case: for valid tokens (any successfully decoded payload), for
"invalid"/malformed failures, for an empty token, and for a missing signing
secret alike. -/
theorem isTokenExpired_true_iff_expired (secret : Option String)
    (outcome : JwtVerifyRaw) (token : String) :
    (JWTUtil.isTokenExpired secret outcome token = true ↔
      ∃ e : ErrInfo, JWTUtil.verifyToken secret outcome token = .error (.exc e) ∧
        e.message = "Token expired") ∧
    (∀ s : String, secret = some s → s ≠ "" → token ≠ "" → outcome = .expired →
      JWTUtil.isTokenExpired secret outcome token = true) ∧
    (∀ p : JWTPayload, outcome = .ok p →
      JWTUtil.isTokenExpired secret outcome token = false) ∧
    (outcome = .invalid → JWTUtil.isTokenExpired secret outcome token = false) ∧
    (token = "" → JWTUtil.isTokenExpired secret outcome token = false) ∧
    (secret = none → JWTUtil.isTokenExpired secret outcome token = false) := by
  refine ⟨?_, ?_, ?_, ?_, ?_, ?_⟩
  · unfold JWTUtil.isTokenExpired
    rcases hv : JWTUtil.verifyToken secret outcome token with t | p
    · rcases t with e | _
      · simp [beq_iff_eq]
      · simp
    · simp
  · rintro s rfl hs ht rfl
    simp [JWTUtil.isTokenExpired, JWTUtil.verifyToken, hs, ht]
  · rintro p rfl
    unfold JWTUtil.isTokenExpired JWTUtil.verifyToken
    rcases secret with _ | s
    · simp
    · by_cases hs : s = "" <;> by_cases ht : token = "" <;>
        by_cases hp : p.userId = "" ∨ p.email = "" <;>
        simp [hs, ht, hp]
  · rintro rfl
    unfold JWTUtil.isTokenExpired JWTUtil.verifyToken
    rcases secret with _ | s
    · simp
    · by_cases hs : s = "" <;> by_cases ht : token = "" <;> simp [hs, ht]
  · rintro rfl
    unfold JWTUtil.isTokenExpired JWTUtil.verifyToken
    rcases secret with _ | s
    · simp
    · by_cases hs : s = "" <;> simp [hs]
  · rintro rfl
    simp [JWTUtil.isTokenExpired, JWTUtil.verifyToken]

/-- Witness for C7: at concrete inputs, an expired-kind failure reports
expired and an invalid-kind failure does not. -/
theorem isTokenExpired_true_iff_expired_witness :
    JWTUtil.isTokenExpired (some "secret1") .expired "tok1" = true ∧
    JWTUtil.isTokenExpired (some "secret1") .invalid "tok1" = false ∧
    JWTUtil.isTokenExpired (some "secret1") .expired "" = false ∧
    JWTUtil.isTokenExpired none .expired "tok1" = false :=
  ⟨(isTokenExpired_true_iff_expired (some "secret1") .expired "tok1").2.1 "secret1" rfl
      (by decide) (by decide) rfl,
   (isTokenExpired_true_iff_expired (some "secret1") .invalid "tok1").2.2.2.1 rfl,
   (isTokenExpired_true_iff_expired (some "secret1") .expired "").2.2.2.2.1 rfl,
   (isTokenExpired_true_iff_expired none .expired "tok1").2.2.2.2.2 rfl⟩

/-- C9: the middleware's decision depends only on the Authorization header,
the signing secret and the jwt.verify outcome (the clock enters only through
that outcome) — never on the user store: any two table states yield the same
result, and a cryptographically valid, unexpired token is accepted on
protected routes even when its user is absent from the table, while the auth
service's validateToken (which the middleware does not call) rejects exactly
that situation. -/
theorem authMiddleware_ignores_user_store :
    (∀ (db1 db2 : List DbUser) (secret : Option String) (outcome : JwtVerifyRaw)
        (header : Option String),
      authenticateTokenApp ⟨db1, secret⟩ outcome header
        = authenticateTokenApp ⟨db2, secret⟩ outcome header) ∧
    (∀ (db : List DbUser) (s hdr tok : String) (p : JWTPayload),
      s ≠ "" → hdr ≠ "" → jsSplitSpace hdr = ["Bearer", tok] → tok ≠ "" →
      p.userId ≠ "" → p.email ≠ "" →
      authenticateTokenApp ⟨db, some s⟩ (.ok p) (some hdr) = .proceed p ∧
      (prismaFindById db p.userId = none →
        AuthService.validateToken (some s) (.ok p) none db tok
          = .error (authServiceErr "User no longer exists"))) := by
  constructor
  · intro db1 db2 secret outcome header
    rfl
  · intro db s hdr tok p hs hhdr hsplit htok hu he
    have hp : ¬ (p.userId = "" ∨ p.email = "") := by
      rintro (h | h) <;> [exact hu h; exact he h]
    constructor
    · simp [authenticateTokenApp, authenticateToken, hhdr, hsplit,
        JWTUtil.verifyToken, hs, htok, hp]
    · intro habs
      simp [AuthService.validateToken, JWTUtil.verifyToken, hs, htok, hp,
        UserService.findById, habs]

/-- Witness for C9: a concrete valid token proceeds on an empty user table,
and validateToken rejects it there. -/
theorem authMiddleware_ignores_user_store_witness :
    authenticateTokenApp ⟨[], some "sec1"⟩ (.ok ⟨"id1", "a@b.com"⟩) (some "Bearer tok1")
      = .proceed ⟨"id1", "a@b.com"⟩ ∧
    AuthService.validateToken (some "sec1") (.ok ⟨"id1", "a@b.com"⟩) none [] "tok1"
      = .error (authServiceErr "User no longer exists") := by
  have h := authMiddleware_ignores_user_store.2 [] "sec1" "Bearer tok1" "tok1"
    ⟨"id1", "a@b.com"⟩ (by decide) (by decide) (by decide) (by decide) (by decide) (by decide)
  exact ⟨h.1, h.2 rfl⟩

/-- C5: validateToken verifies the token and then re-checks that the
referenced user still exists: a successfully verified token whose user is
absent fails with AuthServiceError("User no longer exists"); a failure of the
verification itself is wrapped as AuthServiceError("Token validation failed");
every failure of the chain carries the AuthServiceError name, and the two
messages are distinguishable. -/
theorem validateToken_rechecks_user (secret : Option String) (outcome : JwtVerifyRaw)
    (findFault : Option Thrown) (db : List DbUser) (token : String) :
    (∀ e : ErrInfo,
      AuthService.validateToken secret outcome findFault db token = .error e →
        e.name = "AuthServiceError") ∧
    (∀ p : JWTPayload, JWTUtil.verifyToken secret outcome token = .ok p →
      findFault = none → prismaFindById db p.userId = none →
      AuthService.validateToken secret outcome findFault db token
        = .error (authServiceErr "User no longer exists")) ∧
    (∀ t : Thrown, JWTUtil.verifyToken secret outcome token = .error t →
      (∀ e : ErrInfo, t = .exc e → e.name ≠ "AuthServiceError") →
      AuthService.validateToken secret outcome findFault db token
        = .error (authServiceErr "Token validation failed")) ∧
    (authServiceErr "User no longer exists").message
      ≠ (authServiceErr "Token validation failed").message := by
  refine ⟨?_, ?_, ?_, by decide⟩
  · intro e he
    rcases hv : JWTUtil.verifyToken secret outcome token with t | p
    · rcases t with e2 | _
      · by_cases h2 : e2.name = "AuthServiceError"
        · simp only [AuthService.validateToken, hv, h2, if_true] at he
          cases he
          exact h2
        · simp only [AuthService.validateToken, hv, h2, if_false] at he
          cases he
          rfl
      · simp only [AuthService.validateToken, hv] at he
        cases he
        rfl
    · rcases findFault with _ | f
      · rcases hf : prismaFindById db p.userId with _ | u
        · simp only [AuthService.validateToken, hv, UserService.findById, hf] at he
          cases he
          rfl
        · simp only [AuthService.validateToken, hv, UserService.findById, hf] at he
          cases he
      · simp only [AuthService.validateToken, hv, UserService.findById] at he
        cases he
        rfl
  · rintro p hv rfl habs
    simp [AuthService.validateToken, hv, UserService.findById, habs]
  · intro t hv hnot
    rcases t with e | _
    · simp [AuthService.validateToken, hv, hnot e rfl]
    · simp [AuthService.validateToken, hv]

/-- Witness for C5: a decoded token whose user is absent from a concrete
table fails with "User no longer exists"; an invalid token fails with "Token
validation failed". -/
theorem validateToken_rechecks_user_witness :
    AuthService.validateToken (some "sec1") (.ok ⟨"ghost", "g@x.com"⟩) none
        [⟨"id1", "John", "john@x.com", "h1", 1, 1⟩] "tok1"
      = .error (authServiceErr "User no longer exists") ∧
    AuthService.validateToken (some "sec1") .invalid none
        [⟨"id1", "John", "john@x.com", "h1", 1, 1⟩] "tok1"
      = .error (authServiceErr "Token validation failed") :=
  ⟨(validateToken_rechecks_user (some "sec1") (.ok ⟨"ghost", "g@x.com"⟩) none
        [⟨"id1", "John", "john@x.com", "h1", 1, 1⟩] "tok1").2.1
      ⟨"ghost", "g@x.com"⟩ rfl rfl (by decide),
   (validateToken_rechecks_user (some "sec1") .invalid none
        [⟨"id1", "John", "john@x.com", "h1", 1, 1⟩] "tok1").2.2.1
      (.exc ⟨"Error", "Invalid token", none⟩) rfl
      (by intro e h; cases h; decide)⟩

/-- C1: login with an unregistered email and login with a registered email
but a non-matching password produce one identical InvalidCredentialsError —
same error name (type), same message — so the caller cannot distinguish
whether the email exists.  The quantification ranges over arbitrary stores,
oracles and inputs for the two runs. -/
theorem login_failures_indistinguishable
    (ff1 ff2 : Option Thrown) (bc1 bc2 : String → String → Bool)
    (s1 s2 : Option String) (sg1 sg2 : JWTPayload → String → String)
    (db1 db2 : List DbUser) (d1 d2 : LoginInput) (u : DbUser)
    (h1 : UserService.findByEmail ff1 db1 d1.email = .ok none)
    (h2 : UserService.findByEmail ff2 db2 d2.email = .ok (some u))
    (h3 : PasswordUtil.verifyPassword bc2 d2.password u.password = .ok false) :
    ∃ e : ErrInfo,
      AuthService.login ff1 bc1 s1 sg1 db1 d1 = .error e ∧
      AuthService.login ff2 bc2 s2 sg2 db2 d2 = .error e ∧
      e.name = "InvalidCredentialsError" ∧ e.message = "Invalid email or password" := by
  refine ⟨invalidCredentialsErr, ?_, ?_, rfl, rfl⟩
  · simp [AuthService.login, h1]
  · simp [AuthService.login, h2, h3]

/-- Witness for C1: a concrete store where an unknown email and a wrong
password for a known email yield the same error value. -/
theorem login_failures_indistinguishable_witness :
    ∃ e : ErrInfo,
      AuthService.login none (fun p h => p ++ "X" == h) (some "sec1")
          (fun p s => p.userId ++ s) [⟨"id1", "John", "john@x.com", "goodX", 1, 1⟩]
          ⟨"nobody@x.com", "whatever"⟩ = .error e ∧
      AuthService.login none (fun p h => p ++ "X" == h) (some "sec1")
          (fun p s => p.userId ++ s) [⟨"id1", "John", "john@x.com", "goodX", 1, 1⟩]
          ⟨"john@x.com", "wrong"⟩ = .error e ∧
      e.name = "InvalidCredentialsError" ∧ e.message = "Invalid email or password" :=
  login_failures_indistinguishable none none (fun p h => p ++ "X" == h)
    (fun p h => p ++ "X" == h) (some "sec1") (some "sec1")
    (fun p s => p.userId ++ s) (fun p s => p.userId ++ s)
    [⟨"id1", "John", "john@x.com", "goodX", 1, 1⟩]
    [⟨"id1", "John", "john@x.com", "goodX", 1, 1⟩]
    ⟨"nobody@x.com", "whatever"⟩ ⟨"john@x.com", "wrong"⟩
    ⟨"id1", "John", "john@x.com", "goodX", 1, 1⟩ rfl rfl rfl

/-- C10: register is not atomic with respect to token issuance: when user
creation succeeds but token generation fails (for instance the signing secret
is missing, or the created user's id or email is empty), register reports
AuthServiceError("Registration failed") while the created user is already in
the table it returns — no rollback happens. -/
theorem register_no_rollback_on_token_failure
    (ff cf : Option Thrown) (race : List DbUser) (secret : Option String)
    (sign : JWTPayload → String → String) (hashFn : String → String)
    (newId : String) (now : Nat) (db db2 : List DbUser) (data : RegInput)
    (u : DbUser) (e : ErrInfo)
    (hc : UserService.createUser ff cf race hashFn newId now db data = (.ok u, db2))
    (hg : JWTUtil.generateToken secret sign ⟨u.id, u.email⟩ = .error e) :
    AuthService.register ff cf race secret sign hashFn newId now db data
      = (.error (authServiceErr "Registration failed"), db2) ∧ u ∈ db2 := by
  constructor
  · simp [AuthService.register, hc, hg]
  · unfold UserService.createUser at hc
    rcases hfe : UserService.findByEmail ff db data.email with e1 | r
    · simp [hfe] at hc
    · rcases r with _ | u1
      · rcases hh : PasswordUtil.hashPassword hashFn data.password with e2 | hashed
        · simp [hfe, hh] at hc
        · rcases hpc : prismaCreate cf (db ++ race) newId now data.name data.email hashed
            with t | pr
          · simp [hfe, hh, hpc] at hc
          · simp only [hfe, hh, hpc] at hc
            cases hc
            unfold prismaCreate at hpc
            rcases cf with _ | t
            · by_cases hdup : (db ++ race).any (fun v => v.email == data.email)
              · simp [hdup] at hpc
              · simp only [hdup, Bool.false_eq_true, if_false] at hpc
                cases hpc
                simp
            · simp at hpc
      · simp [hfe] at hc

/-- Witness for C10: with no signing secret configured, a concrete
registration fails with AuthServiceError yet the new user is in the returned
table. -/
theorem register_no_rollback_on_token_failure_witness :
    AuthService.register none none [] none (fun p s => p.userId ++ s) (fun p => p ++ "H")
        "id9" 3 [] ⟨"John", "john@x.com", "Pass"⟩
      = (.error (authServiceErr "Registration failed"),
         [⟨"id9", "John", "john@x.com", "PassH", 3, 3⟩]) ∧
    (⟨"id9", "John", "john@x.com", "PassH", 3, 3⟩ : DbUser)
      ∈ [(⟨"id9", "John", "john@x.com", "PassH", 3, 3⟩ : DbUser)] :=
  register_no_rollback_on_token_failure none none [] none (fun p s => p.userId ++ s)
    (fun p => p ++ "H") "id9" 3 [] [⟨"id9", "John", "john@x.com", "PassH", 3, 3⟩]
    ⟨"John", "john@x.com", "Pass"⟩ ⟨"id9", "John", "john@x.com", "PassH", 3, 3⟩
    ⟨"Error", "JWT_SECRET environment variable is required", none⟩ rfl rfl

/-- C2: the middleware resolves every request to exactly one outcome,
terminal at the first failure: falsy Authorization header → MISSING_TOKEN
(401); a header that is not exactly two space-separated parts with first part
"Bearer" → INVALID_TOKEN_FORMAT (401); empty second part → MISSING_TOKEN
(401); then verification runs: expired → TOKEN_EXPIRED (401),
invalid/malformed → INVALID_TOKEN (401), missing signing secret (absent
configuration or a failure message naming JWT_SECRET) → SERVER_ERROR (500),
any other exception-typed failure → INVALID_TOKEN (401) — including a decoded
payload with missing fields — a non-exception-typed failure → SERVER_ERROR
(500), and on success the decoded payload is attached and the request
proceeds. -/
theorem authenticateToken_state_machine (secret : Option String) (outcome : JwtVerifyRaw) :
    (authenticateToken secret outcome none
        = .fail 401 "MISSING_TOKEN" "Authorization header is required") ∧
    (authenticateToken secret outcome (some "")
        = .fail 401 "MISSING_TOKEN" "Authorization header is required") ∧
    (∀ h : String, h ≠ "" →
      ((jsSplitSpace h).length ≠ 2 ∨ (jsSplitSpace h).head? ≠ some "Bearer") →
      authenticateToken secret outcome (some h)
        = .fail 401 "INVALID_TOKEN_FORMAT"
            "Authorization header must be in format: Bearer <token>") ∧
    (∀ h : String, h ≠ "" → jsSplitSpace h = ["Bearer", ""] →
      authenticateToken secret outcome (some h)
        = .fail 401 "MISSING_TOKEN" "Token is required") ∧
    (∀ h tok : String, h ≠ "" → jsSplitSpace h = ["Bearer", tok] → tok ≠ "" →
      ((∀ s : String, secret = some s → s ≠ "" → outcome = .expired →
          authenticateToken secret outcome (some h)
            = .fail 401 "TOKEN_EXPIRED" "Token expired") ∧
       (∀ s : String, secret = some s → s ≠ "" → outcome = .invalid →
          authenticateToken secret outcome (some h)
            = .fail 401 "INVALID_TOKEN" "Invalid token") ∧
       ((secret = none ∨ secret = some "") →
          authenticateToken secret outcome (some h)
            = .fail 500 "SERVER_ERROR" "JWT_SECRET environment variable is required") ∧
       (∀ (s : String) (e : ErrInfo), secret = some s → s ≠ "" →
          outcome = .other (.exc e) → strIncludes e.message "JWT_SECRET" = true →
          e.message ≠ "Token expired" → e.message ≠ "Invalid token" →
          authenticateToken secret outcome (some h) = .fail 500 "SERVER_ERROR" e.message) ∧
       (∀ (s : String) (e : ErrInfo), secret = some s → s ≠ "" →
          outcome = .other (.exc e) → e.message ≠ "Token expired" →
          e.message ≠ "Invalid token" → strIncludes e.message "JWT_SECRET" = false →
          authenticateToken secret outcome (some h) = .fail 401 "INVALID_TOKEN" e.message) ∧
       (∀ (s : String) (p : JWTPayload), secret = some s → s ≠ "" → outcome = .ok p →
          (p.userId = "" ∨ p.email = "") →
          authenticateToken secret outcome (some h)
            = .fail 401 "INVALID_TOKEN" "Invalid token payload") ∧
       (∀ s : String, secret = some s → s ≠ "" → outcome = .other .nonExc →
          authenticateToken secret outcome (some h)
            = .fail 500 "SERVER_ERROR" "Internal server error during authentication") ∧
       (∀ (s : String) (p : JWTPayload), secret = some s → s ≠ "" → outcome = .ok p →
          p.userId ≠ "" → p.email ≠ "" →
          authenticateToken secret outcome (some h) = .proceed p))) := by
  refine ⟨rfl, rfl, ?_, ?_, ?_⟩
  · intro h hne hfmt
    simp only [authenticateToken, if_neg hne]
    rw [if_pos hfmt]
  · intro h hne hsplit
    simp [authenticateToken, hne, hsplit]
  · intro h tok hne hsplit htok
    refine ⟨?_, ?_, ?_, ?_, ?_, ?_, ?_, ?_⟩
    · rintro s rfl hs rfl
      simp [authenticateToken, hne, hsplit, htok, JWTUtil.verifyToken, hs]
    · rintro s rfl hs rfl
      simp [authenticateToken, hne, hsplit, htok, JWTUtil.verifyToken, hs]
    · rintro (rfl | rfl) <;>
        simp [authenticateToken, hne, hsplit, htok, JWTUtil.verifyToken, strIncludes,
          hasSubstring]
    · rintro s e rfl hs rfl hinc hm1 hm2
      simp [authenticateToken, hne, hsplit, htok, JWTUtil.verifyToken, hs, hm1, hm2, hinc]
    · rintro s e rfl hs rfl hm1 hm2 hinc
      simp [authenticateToken, hne, hsplit, htok, JWTUtil.verifyToken, hs, hm1, hm2, hinc]
    · rintro s p rfl hs rfl hp
      have hinc : strIncludes "Invalid token payload" "JWT_SECRET" = false := by decide
      simp [authenticateToken, hne, hsplit, htok, JWTUtil.verifyToken, hs, hp, hinc]
    · rintro s rfl hs rfl
      simp [authenticateToken, hne, hsplit, htok, JWTUtil.verifyToken, hs]
    · rintro s p rfl hs rfl hu hemail
      have hp : ¬ (p.userId = "" ∨ p.email = "") := by
        rintro (x | x) <;> [exact hu x; exact hemail x]
      simp [authenticateToken, hne, hsplit, htok, JWTUtil.verifyToken, hs, hp]

/-- Witness for C2: one concrete request per branch of the state machine. -/
theorem authenticateToken_state_machine_witness :
    authenticateToken (some "sec1") .expired none
      = .fail 401 "MISSING_TOKEN" "Authorization header is required" ∧
    authenticateToken (some "sec1") .expired (some "Token abc")
      = .fail 401 "INVALID_TOKEN_FORMAT" "Authorization header must be in format: Bearer <token>" ∧
    authenticateToken (some "sec1") .expired (some "Bearer ")
      = .fail 401 "MISSING_TOKEN" "Token is required" ∧
    authenticateToken (some "sec1") .expired (some "Bearer abc")
      = .fail 401 "TOKEN_EXPIRED" "Token expired" ∧
    authenticateToken (some "sec1") .invalid (some "Bearer abc")
      = .fail 401 "INVALID_TOKEN" "Invalid token" ∧
    authenticateToken none .invalid (some "Bearer abc")
      = .fail 500 "SERVER_ERROR" "JWT_SECRET environment variable is required" ∧
    authenticateToken (some "sec1") (.other (.exc ⟨"E", "boom", none⟩)) (some "Bearer abc")
      = .fail 401 "INVALID_TOKEN" "boom" ∧
    authenticateToken (some "sec1") (.other .nonExc) (some "Bearer abc")
      = .fail 500 "SERVER_ERROR" "Internal server error during authentication" ∧
    authenticateToken (some "sec1") (.ok ⟨"id1", "a@b.com"⟩) (some "Bearer abc")
      = .proceed ⟨"id1", "a@b.com"⟩ := by
  have base := authenticateToken_state_machine (some "sec1") .expired
  have h5 := (authenticateToken_state_machine (some "sec1") .expired).2.2.2.2
    "Bearer abc" "abc" (by decide) (by decide) (by decide)
  have h6 := (authenticateToken_state_machine (some "sec1") .invalid).2.2.2.2
    "Bearer abc" "abc" (by decide) (by decide) (by decide)
  have h7 := (authenticateToken_state_machine none .invalid).2.2.2.2
    "Bearer abc" "abc" (by decide) (by decide) (by decide)
  have h8 := (authenticateToken_state_machine (some "sec1")
    (.other (.exc ⟨"E", "boom", none⟩))).2.2.2.2 "Bearer abc" "abc"
    (by decide) (by decide) (by decide)
  have h9 := (authenticateToken_state_machine (some "sec1") (.other .nonExc)).2.2.2.2
    "Bearer abc" "abc" (by decide) (by decide) (by decide)
  have h10 := (authenticateToken_state_machine (some "sec1")
    (.ok ⟨"id1", "a@b.com"⟩)).2.2.2.2 "Bearer abc" "abc" (by decide) (by decide) (by decide)
  exact ⟨base.1,
    base.2.2.1 "Token abc" (by decide) (by decide),
    base.2.2.2.1 "Bearer " (by decide) (by decide),
    h5.1 "sec1" rfl (by decide) rfl,
    h6.2.1 "sec1" rfl (by decide) rfl,
    h7.2.2.1 (Or.inl rfl),
    h8.2.2.2.2.1 "sec1" ⟨"E", "boom", none⟩ rfl (by decide) rfl (by decide) (by decide)
      (by decide),
    h9.2.2.2.2.2.2.1 "sec1" rfl (by decide) rfl,
    h10.2.2.2.2.2.2.2 "sec1" ⟨"id1", "a@b.com"⟩ rfl (by decide) rfl (by decide) (by decide)⟩

/-- After deleting every row with the given primary key, the key no longer
resolves. -/
theorem prismaFindById_filter_self (db : List DbUser) (id : String) :
    prismaFindById (db.filter (fun v => v.id != id)) id = none := by
  rw [prismaFindById, List.find?_eq_none]
  intro u hu
  rcases List.mem_filter.mp hu with ⟨_, hne⟩
  simpa using hne

/-- C8: deleteUser raises UserNotFoundError exactly when the storage layer
reports record-not-found (code P2025) — with a healthy engine that is exactly
when the id is absent — and raises UserServiceError for any other storage
failure; hence deleting an existing user twice yields success then
UserNotFoundError. -/
theorem deleteUser_semantics (fault : Option Thrown) (db : List DbUser) (id : String) :
    ((UserService.deleteUser fault db id).fst = .error (userNotFoundErr id) ↔
      ∃ e : ErrInfo, prismaDelete fault db id = .error (.exc e) ∧ e.code = some "P2025") ∧
    (∀ t : Thrown, prismaDelete fault db id = .error t →
      (∀ e : ErrInfo, t = .exc e → e.code ≠ some "P2025") →
      (UserService.deleteUser fault db id).fst
        = .error (userServiceErr ("Failed to delete user: " ++ id))) ∧
    (fault = none →
      (prismaFindById db id = none →
        (UserService.deleteUser fault db id).fst = .error (userNotFoundErr id)) ∧
      (∀ u : DbUser, prismaFindById db id = some u →
        UserService.deleteUser fault db id = (.ok (), db.filter (fun v => v.id != id)) ∧
        (UserService.deleteUser none (db.filter (fun v => v.id != id)) id).fst
          = .error (userNotFoundErr id))) := by
  refine ⟨⟨?_, ?_⟩, ?_, ?_⟩
  · intro hdel
    rcases hpd : prismaDelete fault db id with t | db2
    · rcases t with e | _
      · by_cases hc : e.code = some "P2025"
        · exact ⟨e, rfl, hc⟩
        · simp [UserService.deleteUser, hpd, hc, userServiceErr, userNotFoundErr] at hdel
      · simp [UserService.deleteUser, hpd, userServiceErr, userNotFoundErr] at hdel
    · simp only [UserService.deleteUser, hpd] at hdel
      cases hdel
  · rintro ⟨e, hpd, hc⟩
    simp [UserService.deleteUser, hpd, hc]
  · intro t hpd hnot
    rcases t with e | _
    · simp [UserService.deleteUser, hpd, hnot e rfl]
    · simp [UserService.deleteUser, hpd]
  · rintro rfl
    constructor
    · intro habs
      simp [UserService.deleteUser, prismaDelete, habs, prismaP2025]
    · intro u hu
      refine ⟨by simp [UserService.deleteUser, prismaDelete, hu], ?_⟩
      simp [UserService.deleteUser, prismaDelete, prismaFindById_filter_self db id,
        prismaP2025]

/-- Witness for C8: on a concrete one-row table, the first delete succeeds
and the second reports UserNotFoundError; an injected infrastructure failure
reports UserServiceError. -/
theorem deleteUser_semantics_witness :
    UserService.deleteUser none [⟨"id1", "John", "john@x.com", "h1", 1, 1⟩] "id1"
      = (.ok (), []) ∧
    (UserService.deleteUser none [] "id1").fst = .error (userNotFoundErr "id1") ∧
    (UserService.deleteUser (some .nonExc) [⟨"id1", "John", "john@x.com", "h1", 1, 1⟩]
        "id1").fst = .error (userServiceErr "Failed to delete user: id1") := by
  have h := ((deleteUser_semantics none [⟨"id1", "John", "john@x.com", "h1", 1, 1⟩]
    "id1").2.2 rfl).2 ⟨"id1", "John", "john@x.com", "h1", 1, 1⟩ rfl
  have h3 := (deleteUser_semantics (some .nonExc)
    [⟨"id1", "John", "john@x.com", "h1", 1, 1⟩] "id1").2.1 .nonExc rfl
    (by intro e he; cases he)
  exact ⟨h.1, by simpa using h.2, h3⟩

/-- An optional field is truthy exactly when it is present with a non-empty
value. -/
theorem optTruthy_eq_some {o : Option String} {p : String} (h : optTruthy o = some p) :
    o = some p ∧ p ≠ "" := by
  rcases o with _ | s
  · simp [optTruthy] at h
  · unfold optTruthy at h
    by_cases hs : s = ""
    · simp [hs] at h
    · simp only [hs, if_false] at h
      cases h
      exact ⟨rfl, hs⟩

/-- Inversion of a successful partial prisma update: the row existed, the new
row applies exactly the supplied fields, and only that row changes. -/
theorem prismaUpdate_ok_inversion (db db2 : List DbUser) (id : String)
    (nm em pw : Option String) (now : Nat) (u2 : DbUser)
    (h : prismaUpdate none db id nm em pw now = .ok (u2, db2)) :
    ∃ existing : DbUser, prismaFindById db id = some existing ∧
      u2 = ⟨existing.id, nm.getD existing.name, em.getD existing.email,
            pw.getD existing.password, existing.createdAt, now⟩ ∧
      db2 = db.map (fun v => if v.id == id then u2 else v) := by
  unfold prismaUpdate at h
  rcases hfind : prismaFindById db id with _ | existing
  · rw [hfind] at h
    cases h
  · rw [hfind] at h
    dsimp only [] at h
    by_cases hany : (db.any fun v => v.id != id && v.email == (em.getD existing.email)) = true
    · rw [if_pos hany] at h
      cases h
    · rw [if_neg hany] at h
      rcases h with ⟨rfl, rfl⟩
      exact ⟨existing, rfl, rfl, rfl⟩

/-- Inversion of a successful fault-free updateUser: the prisma update ran on
the truthiness-filtered fields, with the supplied password hashed. -/
theorem updateUser_ok_inversion (hashFn : String → String) (now : Nat)
    (db db2 : List DbUser) (id : String) (data : UpdateInput) (u2 : DbUser)
    (h : UserService.updateUser none none none hashFn now db id data = (.ok u2, db2)) :
    prismaUpdate none db id (optTruthy data.name) (optTruthy data.email)
      ((optTruthy data.password).map hashFn) now = .ok (u2, db2) := by
  unfold UserService.updateUser at h
  rcases hfind : UserService.findById none db id with e | r
  · simp [UserService.findById] at hfind
  · rw [hfind] at h
    rcases r with _ | existing
    · simp [UserService.updateUserCatch, userNotFoundErr] at h
    · dsimp only [] at h
      rcases hdm : data.email with _ | em
      all_goals rw [hdm] at h
      all_goals dsimp only [] at h
      · rcases hopt : optTruthy data.password with _ | p
        · simp only [hopt] at h
          rcases hpu : prismaUpdate none db id (optTruthy data.name)
              (optTruthy data.email) none now with t | pr
          all_goals rw [hdm] at hpu; rw [hpu] at h
          · simp at h
          · rcases pr with ⟨u3, db3⟩
            rcases h with ⟨h1, h2⟩
            simpa using hpu
        · rcases optTruthy_eq_some hopt with ⟨hps, hpne⟩
          simp only [hopt, PasswordUtil.hashPassword, if_neg hpne] at h
          rcases hpu : prismaUpdate none db id (optTruthy data.name)
              (optTruthy data.email) (some (hashFn p)) now with t | pr
          all_goals rw [hdm] at hpu; rw [hpu] at h
          · simp at h
          · rcases pr with ⟨u3, db3⟩
            rcases h with ⟨h1, h2⟩
            simpa using hpu
      · by_cases hcond : em ≠ "" ∧ em ≠ existing.email
        · rw [if_pos hcond] at h
          rcases hfe : UserService.findByEmail none db em with err | rr
          · simp [UserService.findByEmail] at hfe
          · rw [hfe] at h
            rcases rr with _ | w
            · rcases hopt : optTruthy data.password with _ | p
              · simp only [hopt] at h
                rcases hpu : prismaUpdate none db id (optTruthy data.name)
                    (optTruthy data.email) none now with t | pr
                all_goals rw [hdm] at hpu; rw [hpu] at h
                · simp at h
                · rcases pr with ⟨u3, db3⟩
                  rcases h with ⟨h1, h2⟩
                  simpa using hpu
              · rcases optTruthy_eq_some hopt with ⟨hps, hpne⟩
                simp only [hopt, PasswordUtil.hashPassword, if_neg hpne] at h
                rcases hpu : prismaUpdate none db id (optTruthy data.name)
                    (optTruthy data.email) (some (hashFn p)) now with t | pr
                all_goals rw [hdm] at hpu; rw [hpu] at h
                · simp at h
                · rcases pr with ⟨u3, db3⟩
                  rcases h with ⟨h1, h2⟩
                  simpa using hpu
            · simp [UserService.updateUserCatch, userAlreadyExistsErr, userNotFoundErr] at h
        · rw [if_neg hcond] at h
          rcases hopt : optTruthy data.password with _ | p
          · simp only [hopt] at h
            rcases hpu : prismaUpdate none db id (optTruthy data.name)
                (optTruthy data.email) none now with t | pr
            all_goals rw [hdm] at hpu; rw [hpu] at h
            · simp at h
            · rcases pr with ⟨u3, db3⟩
              rcases h with ⟨h1, h2⟩
              simpa using hpu
          · rcases optTruthy_eq_some hopt with ⟨hps, hpne⟩
            simp only [hopt, PasswordUtil.hashPassword, if_neg hpne] at h
            rcases hpu : prismaUpdate none db id (optTruthy data.name)
                (optTruthy data.email) (some (hashFn p)) now with t | pr
            all_goals rw [hdm] at hpu; rw [hpu] at h
            · simp at h
            · rcases pr with ⟨u3, db3⟩
              rcases h with ⟨h1, h2⟩
              simpa using hpu



/-- C6: updateUser touches only the supplied (truthy) fields — unsupplied
fields keep their previous values, id and createdAt are preserved, a supplied
password is re-hashed before storing, updatedAt is bumped, and only the
target row changes; an update supplying only an email equal to the user's
current email succeeds without the email-conflict check raising, even though
that email is in use by the target row itself; and an update supplying no
fields at all is rejected by the validation schema with the
at-least-one-field message. -/
theorem updateUser_partial_semantics :
    (∀ (hashFn : String → String) (now : Nat) (db db2 : List DbUser) (id : String)
        (data : UpdateInput) (u2 : DbUser),
      UserService.updateUser none none none hashFn now db id data = (.ok u2, db2) →
      ∃ existing : DbUser, prismaFindById db id = some existing ∧
        u2.id = existing.id ∧ u2.createdAt = existing.createdAt ∧
        u2.name = (optTruthy data.name).getD existing.name ∧
        u2.email = (optTruthy data.email).getD existing.email ∧
        u2.password = ((optTruthy data.password).map hashFn).getD existing.password ∧
        u2.updatedAt = now ∧
        db2 = db.map (fun v => if v.id == id then u2 else v)) ∧
    (∀ (hashFn : String → String) (now : Nat) (db : List DbUser) (id : String) (u : DbUser),
      prismaFindById db id = some u → u.email ≠ "" →
      (∀ v ∈ db, v.email = u.email → v.id = u.id) →
      (UserService.updateUser none none none hashFn now db id
          ⟨none, some u.email, none⟩).fst
        = .ok ⟨u.id, u.name, u.email, u.password, u.createdAt, now⟩) ∧
    (∀ emailFormatOk : String → Bool,
      userUpdateSchemaParse emailFormatOk ⟨none, none, none⟩
        = .error "At least one field must be provided for update") := by
  refine ⟨?_, ?_, ?_⟩
  · intro hashFn now db db2 id data u2 hupd
    have hpu := updateUser_ok_inversion hashFn now db db2 id data u2 hupd
    rcases prismaUpdate_ok_inversion db db2 id (optTruthy data.name) (optTruthy data.email)
        ((optTruthy data.password).map hashFn) now u2 hpu with ⟨ex, hfind, hu2, hdb2⟩
    exact ⟨ex, hfind, by rw [hu2], by rw [hu2], by rw [hu2], by rw [hu2], by rw [hu2],
      by rw [hu2], hdb2⟩
  · intro hashFn now db id u hfind hne huniq
    have hid : u.id = id := by
      simpa using List.find?_some hfind
    have hany : (db.any fun v => v.id != id && v.email == u.email) = false := by
      rw [Bool.eq_false_iff]
      intro hc
      rcases List.any_eq_true.mp hc with ⟨v, hv, hvp⟩
      rcases (Bool.and_eq_true _ _).mp hvp with ⟨hv1, hv2⟩
      have hveq : v.email = u.email := by simpa using hv2
      have hvid : v.id = u.id := huniq v hv hveq
      rw [hvid, hid] at hv1
      simp at hv1
    have hcond : ¬ (u.email ≠ "" ∧ u.email ≠ u.email) := by
      rintro ⟨_, hx⟩
      exact hx rfl
    simp [UserService.updateUser, UserService.findById, hfind, hcond, optTruthy, hne,
      prismaUpdate, hany]
  · intro emailFormatOk
    rfl

/-- Witness for C6: a concrete partial update changing name and password
keeps the other fields, a concrete own-email update succeeds, and the empty
update is rejected. -/
theorem updateUser_partial_semantics_witness :
    (∃ existing : DbUser,
      prismaFindById [⟨"id1", "John Doe", "john@example.com", "hashed1", 5, 5⟩] "id1"
        = some existing ∧
      (⟨"id1", "New Name", "john@example.com", "NewPass12H", 5, 9⟩ : DbUser).id
        = existing.id ∧
      (⟨"id1", "New Name", "john@example.com", "NewPass12H", 5, 9⟩ : DbUser).createdAt
        = existing.createdAt ∧
      (⟨"id1", "New Name", "john@example.com", "NewPass12H", 5, 9⟩ : DbUser).name
        = (optTruthy (UpdateInput.mk (some "New Name") none (some "NewPass12")).name).getD
            existing.name ∧
      (⟨"id1", "New Name", "john@example.com", "NewPass12H", 5, 9⟩ : DbUser).email
        = (optTruthy (UpdateInput.mk (some "New Name") none (some "NewPass12")).email).getD
            existing.email ∧
      (⟨"id1", "New Name", "john@example.com", "NewPass12H", 5, 9⟩ : DbUser).password
        = ((optTruthy (UpdateInput.mk (some "New Name") none
            (some "NewPass12")).password).map (fun p => p ++ "H")).getD existing.password ∧
      (⟨"id1", "New Name", "john@example.com", "NewPass12H", 5, 9⟩ : DbUser).updatedAt = 9 ∧
      [(⟨"id1", "New Name", "john@example.com", "NewPass12H", 5, 9⟩ : DbUser)]
        = [(⟨"id1", "John Doe", "john@example.com", "hashed1", 5, 5⟩ : DbUser)].map
            (fun v => if v.id == "id1"
              then (⟨"id1", "New Name", "john@example.com", "NewPass12H", 5, 9⟩ : DbUser)
              else v)) ∧
    (UserService.updateUser none none none (fun p => p ++ "H") 9
        [⟨"id1", "John Doe", "john@example.com", "hashed1", 5, 5⟩] "id1"
        ⟨none, some "john@example.com", none⟩).fst
      = .ok ⟨"id1", "John Doe", "john@example.com", "hashed1", 5, 9⟩ ∧
    userUpdateSchemaParse (fun _ => true) ⟨none, none, none⟩
      = .error "At least one field must be provided for update" :=
  ⟨updateUser_partial_semantics.1 (fun p => p ++ "H") 9
      [⟨"id1", "John Doe", "john@example.com", "hashed1", 5, 5⟩]
      [⟨"id1", "New Name", "john@example.com", "NewPass12H", 5, 9⟩] "id1"
      ⟨some "New Name", none, some "NewPass12"⟩
      ⟨"id1", "New Name", "john@example.com", "NewPass12H", 5, 9⟩ rfl,
   updateUser_partial_semantics.2.1 (fun p => p ++ "H") 9
      [⟨"id1", "John Doe", "john@example.com", "hashed1", 5, 5⟩] "id1"
      ⟨"id1", "John Doe", "john@example.com", "hashed1", 5, 5⟩ rfl (by decide) (by decide),
   updateUser_partial_semantics.2.2 (fun _ => true)⟩

/-- The keys of a password-stripped user object. -/
theorem excludePassword_keys (u : DbUser) :
    (excludePassword u).map Prod.fst = ["id", "name", "email", "createdAt", "updatedAt"] := by
  simp [excludePassword, userObj]

/-- The rest-spread drops exactly the password key. -/
theorem password_key_excluded (u : DbUser) :
    "password" ∉ (excludePassword u).map Prod.fst := by
  rw [excludePassword_keys]
  decide

/-- C3: no user object produced by a user-facing operation — register, login,
get one, list all, create, update — contains a password key. -/
theorem user_outputs_never_contain_password :
    (∀ (ff cf : Option Thrown) (race : List DbUser) (secret : Option String)
        (sign : JWTPayload → String → String) (hashFn : String → String)
        (newId : String) (now : Nat) (db db2 : List DbUser) (data : RegInput)
        (r : AuthResponse),
      AuthService.register ff cf race secret sign hashFn newId now db data
        = (.ok r, db2) → "password" ∉ r.user.map Prod.fst) ∧
    (∀ (ff : Option Thrown) (bc : String → String → Bool) (secret : Option String)
        (sign : JWTPayload → String → String) (db : List DbUser) (data : LoginInput)
        (r : AuthResponse),
      AuthService.login ff bc secret sign db data = .ok r →
        "password" ∉ r.user.map Prod.fst) ∧
    (∀ (fault : Option Thrown) (db : List DbUser) (id : String) (st : Nat)
        (objs : List (List (String × String))),
      UserController.getUserById fault db id = .okData st objs →
        ∀ o ∈ objs, "password" ∉ o.map Prod.fst) ∧
    (∀ (fault : Option Thrown) (db : List DbUser) (st : Nat)
        (objs : List (List (String × String))),
      UserController.getAllUsers fault db = .okData st objs →
        ∀ o ∈ objs, "password" ∉ o.map Prod.fst) ∧
    (∀ (ff cf : Option Thrown) (race : List DbUser) (hashFn : String → String)
        (newId : String) (now : Nat) (db : List DbUser) (data : RegInput) (st : Nat)
        (objs : List (List (String × String))),
      UserController.createUser ff cf race hashFn newId now db data = .okData st objs →
        ∀ o ∈ objs, "password" ∉ o.map Prod.fst) ∧
    (∀ (ff ef uf : Option Thrown) (hashFn : String → String) (now : Nat)
        (db : List DbUser) (id : String) (data : UpdateInput) (st : Nat)
        (objs : List (List (String × String))),
      UserController.updateUser ff ef uf hashFn now db id data = .okData st objs →
        ∀ o ∈ objs, "password" ∉ o.map Prod.fst) := by
  refine ⟨?_, ?_, ?_, ?_, ?_, ?_⟩
  · intro ff cf race secret sign hashFn newId now db db2 data r hreg
    rcases hc : UserService.createUser ff cf race hashFn newId now db data with ⟨res, dbx⟩
    rcases res with e | u
    · simp only [AuthService.register, hc] at hreg
      split at hreg <;> simp at hreg
    · simp only [AuthService.register, hc] at hreg
      rcases hg : JWTUtil.generateToken secret sign ⟨u.id, u.email⟩ with e | token
      · rw [hg] at hreg
        simp at hreg
      · rw [hg] at hreg
        rcases hreg with ⟨h1, h2⟩
        exact password_key_excluded u
  · intro ff bc secret sign db data r hlog
    unfold AuthService.login at hlog
    rcases hf : UserService.findByEmail ff db data.email with e | r2
    · rw [hf] at hlog
      cases hlog
    · rw [hf] at hlog
      rcases r2 with _ | user
      · simp at hlog
      · dsimp only [] at hlog
        rcases hv : PasswordUtil.verifyPassword bc data.password user.password with e | b
        · rw [hv] at hlog
          simp at hlog
        · rw [hv] at hlog
          rcases b with _ | _
          · simp at hlog
          · rcases hg : JWTUtil.generateToken secret sign ⟨user.id, user.email⟩ with e | token
            · rw [hg] at hlog
              simp at hlog
            · rw [hg] at hlog
              cases hlog
              exact password_key_excluded user
  · intro fault db id st objs hctrl
    unfold UserController.getUserById at hctrl
    split at hctrl
    · cases hctrl
    · split at hctrl
      · split at hctrl <;> cases hctrl
      · cases hctrl
      · cases hctrl
        intro o ho
        rcases List.mem_singleton.mp ho with rfl
        exact password_key_excluded _
  · intro fault db st objs hctrl
    unfold UserController.getAllUsers at hctrl
    split at hctrl
    · split at hctrl <;> cases hctrl
    · cases hctrl
      intro o ho
      rcases List.mem_map.mp ho with ⟨u, hu, rfl⟩
      exact password_key_excluded u
  · intro ff cf race hashFn newId now db data st objs hctrl
    unfold UserController.createUser at hctrl
    split at hctrl
    · split at hctrl
      · cases hctrl
      · split at hctrl <;> cases hctrl
    · cases hctrl
      intro o ho
      rcases List.mem_singleton.mp ho with rfl
      exact password_key_excluded _
  · intro ff ef uf hashFn now db id data st objs hctrl
    unfold UserController.updateUser at hctrl
    split at hctrl
    · cases hctrl
    · split at hctrl
      · split at hctrl
        · cases hctrl
        · split at hctrl
          · cases hctrl
          · split at hctrl <;> cases hctrl
      · cases hctrl
        intro o ho
        rcases List.mem_singleton.mp ho with rfl
        exact password_key_excluded _

/-- Witness for C3: a concrete successful register and a concrete get-by-id
produce password-free objects. -/
theorem user_outputs_never_contain_password_witness :
    ("password" ∉ (AuthResponse.mk "id9sec1"
        (excludePassword ⟨"id9", "John", "john@x.com", "PassH", 3, 3⟩)).user.map Prod.fst) ∧
    (∀ o ∈ [excludePassword (⟨"id1", "John", "john@x.com", "h1", 1, 1⟩ : DbUser)],
      "password" ∉ o.map Prod.fst) :=
  ⟨user_outputs_never_contain_password.1 none none [] (some "sec1")
      (fun p s => p.userId ++ s) (fun p => p ++ "H") "id9" 3 []
      [⟨"id9", "John", "john@x.com", "PassH", 3, 3⟩] ⟨"John", "john@x.com", "Pass"⟩
      ⟨"id9sec1", excludePassword ⟨"id9", "John", "john@x.com", "PassH", 3, 3⟩⟩ rfl,
   user_outputs_never_contain_password.2.2.1 none
      [⟨"id1", "John", "john@x.com", "h1", 1, 1⟩] "id1" 200
      [excludePassword ⟨"id1", "John", "john@x.com", "h1", 1, 1⟩] rfl⟩

/-- Inversion of a successful createUser: the new row is exactly the hashed
registration data and it is appended to the table seen at insert time. -/
theorem createUser_ok_inversion (ff cf : Option Thrown) (race : List DbUser)
    (hashFn : String → String) (newId : String) (now : Nat) (db db2 : List DbUser)
    (data : RegInput) (u : DbUser)
    (h : UserService.createUser ff cf race hashFn newId now db data = (.ok u, db2)) :
    u = ⟨newId, data.name, data.email, hashFn data.password, now, now⟩ ∧
    db2 = (db ++ race) ++ [u] := by
  unfold UserService.createUser at h
  rcases hfe : UserService.findByEmail ff db data.email with e | r
  · rw [hfe] at h
    simp at h
  · rw [hfe] at h
    rcases r with _ | w
    · dsimp only [] at h
      rcases hh : PasswordUtil.hashPassword hashFn data.password with e | hashed
      · rw [hh] at h
        simp at h
      · rw [hh] at h
        dsimp only [] at h
        rcases hpc : prismaCreate cf (db ++ race) newId now data.name data.email hashed
            with t | pr
        · rw [hpc] at h
          simp at h
        · rcases pr with ⟨u3, db3⟩
          rw [hpc] at h
          rcases h with ⟨h1, h2⟩
          unfold prismaCreate at hpc
          rcases cf with _ | t
          · by_cases hdup : ((db ++ race).any fun v => v.email == data.email) = true
            · rw [if_pos hdup] at hpc
              cases hpc
            · rw [if_neg hdup] at hpc
              rcases hpc with ⟨rfl, rfl⟩
              have hhash : hashed = hashFn data.password := by
                unfold PasswordUtil.hashPassword at hh
                split at hh
                · cases hh
                · cases hh
                  rfl
              subst hhash
              exact ⟨rfl, rfl⟩
          · cases hpc
    · simp at h

/-- C4: with a healthy engine, createUser raises UserAlreadyExistsError
exactly when the (case-insensitively compared) email is already present —
caught either by the findByEmail pre-check against the pre-call table or by
the storage layer's unique-constraint violation (P2002) against rows
committed concurrently in the check-then-act window — so registering twice
with the same email yields UserAlreadyExistsError on the second call; any
other storage failure is raised as UserServiceError. -/
theorem createUser_alreadyExists_semantics (race : List DbUser)
    (hashFn : String → String) (newId : String) (now : Nat) (db : List DbUser)
    (data : RegInput) :
    (jsToLowerCase data.email = data.email →
      (∀ v ∈ db ++ race, jsToLowerCase v.email = v.email) →
      data.password ≠ "" →
      ((∃ e : ErrInfo,
          (UserService.createUser none none race hashFn newId now db data).fst
            = .error e ∧ e.name = "UserAlreadyExistsError") ↔
        ∃ v ∈ db ++ race, jsToLowerCase v.email = jsToLowerCase data.email)) ∧
    (∀ t : Thrown, prismaFindByEmail db (jsToLowerCase data.email) = none →
      data.password ≠ "" →
      (∀ e : ErrInfo, t = .exc e → e.code ≠ some "P2002" ∧
        e.name ≠ "UserAlreadyExistsError") →
      (UserService.createUser none (some t) race hashFn newId now db data).fst
        = .error (userServiceErr "Failed to create user")) ∧
    (∀ (db1 : List DbUser) (u : DbUser) (newId2 : String) (now2 : Nat),
      jsToLowerCase data.email = data.email →
      UserService.createUser none none [] hashFn newId now db data = (.ok u, db1) →
      (UserService.createUser none none [] hashFn newId2 now2 db1 data).fst
        = .error (userAlreadyExistsErr data.email)) := by
  refine ⟨?_, ?_, ?_⟩
  · intro hlow hstore hpw
    constructor
    · rintro ⟨e, he, hname⟩
      rcases hpre : prismaFindByEmail db (jsToLowerCase data.email) with _ | w
      · by_cases hany : ((db ++ race).any fun v => v.email == data.email) = true
        · rcases List.any_eq_true.mp hany with ⟨v, hv, hveq⟩
          refine ⟨v, hv, ?_⟩
          have hv2 : v.email = data.email := by simpa using hveq
          rw [hstore v hv, hv2]
          exact hlow.symm
        · exfalso
          simp [UserService.createUser, UserService.findByEmail, hpre,
            PasswordUtil.hashPassword, hpw, prismaCreate, hany] at he
      · have hw : w ∈ db := List.mem_of_find?_eq_some hpre
        have hwmem : w ∈ db ++ race := List.mem_append.mpr (Or.inl hw)
        have hwp : w.email = jsToLowerCase data.email := by
          simpa using List.find?_some hpre
        exact ⟨w, hwmem, by rw [hstore w hwmem, hwp]⟩
    · rintro ⟨v, hv, hveq⟩
      have hvemail : v.email = data.email := by
        rw [← hstore v hv, hveq, hlow]
      rcases hpre : prismaFindByEmail db (jsToLowerCase data.email) with _ | w
      · have hany : ((db ++ race).any fun x => x.email == data.email) = true :=
          List.any_eq_true.mpr ⟨v, hv, by simp [hvemail]⟩
        refine ⟨userAlreadyExistsErr data.email, ?_, rfl⟩
        simp [UserService.createUser, UserService.findByEmail, hpre,
          PasswordUtil.hashPassword, hpw, prismaCreate, hany, UserService.createUserCatch,
          prismaP2002, userAlreadyExistsErr]
      · refine ⟨userAlreadyExistsErr data.email, ?_, rfl⟩
        simp [UserService.createUser, UserService.findByEmail, hpre,
          UserService.createUserCatch, userAlreadyExistsErr]
  · intro t hpre hpw hnot
    rcases t with e | _
    · have h1 := (hnot e rfl).1
      have h2 := (hnot e rfl).2
      simp [UserService.createUser, UserService.findByEmail, hpre,
        PasswordUtil.hashPassword, hpw, prismaCreate, UserService.createUserCatch, h1, h2]
    · simp [UserService.createUser, UserService.findByEmail, hpre,
        PasswordUtil.hashPassword, hpw, prismaCreate, UserService.createUserCatch]
  · intro db1 u newId2 now2 hlow hfirst
    rcases createUser_ok_inversion none none [] hashFn newId now db db1 data u hfirst
      with ⟨hu, hdb1⟩
    have humem : u ∈ db1 := by
      rw [hdb1]
      simp
    have huemail : u.email = data.email := by rw [hu]
    rcases hpre : prismaFindByEmail db1 (jsToLowerCase data.email) with _ | w
    · exfalso
      rw [prismaFindByEmail, List.find?_eq_none] at hpre
      refine hpre u humem ?_
      simp [huemail, hlow]
    · simp [UserService.createUser, UserService.findByEmail, hpre,
        UserService.createUserCatch, userAlreadyExistsErr]

/-- Witness for C4: on a concrete one-row table a duplicate registration
fails with UserAlreadyExistsError; a concrete infrastructure failure gives
UserServiceError; the second of two identical registrations fails with
UserAlreadyExistsError. -/
theorem createUser_alreadyExists_semantics_witness :
    (∃ e : ErrInfo,
      (UserService.createUser none none [] (fun p => p ++ "H") "id2" 7
          [⟨"id1", "John", "john@x.com", "h1", 1, 1⟩]
          ⟨"Johnny", "john@x.com", "Pass"⟩).fst = .error e ∧
      e.name = "UserAlreadyExistsError") ∧
    (UserService.createUser none (some .nonExc) [] (fun p => p ++ "H") "id2" 7 []
        ⟨"John", "john@x.com", "Pass"⟩).fst
      = .error (userServiceErr "Failed to create user") ∧
    (UserService.createUser none none [] (fun p => p ++ "H") "id3" 8
        [⟨"id2", "John", "john@x.com", "PassH", 7, 7⟩]
        ⟨"John", "john@x.com", "Pass"⟩).fst
      = .error (userAlreadyExistsErr "john@x.com") :=
  ⟨((createUser_alreadyExists_semantics [] (fun p => p ++ "H") "id2" 7
        [⟨"id1", "John", "john@x.com", "h1", 1, 1⟩]
        ⟨"Johnny", "john@x.com", "Pass"⟩).1 (by decide) (by decide) (by decide)).mpr
      ⟨⟨"id1", "John", "john@x.com", "h1", 1, 1⟩, by decide, by decide⟩,
   (createUser_alreadyExists_semantics [] (fun p => p ++ "H") "id2" 7 []
        ⟨"John", "john@x.com", "Pass"⟩).2.1 .nonExc rfl (by decide)
      (by intro e h; cases h),
   (createUser_alreadyExists_semantics [] (fun p => p ++ "H") "id2" 7 []
        ⟨"John", "john@x.com", "Pass"⟩).2.2
      [⟨"id2", "John", "john@x.com", "PassH", 7, 7⟩]
      ⟨"id2", "John", "john@x.com", "PassH", 7, 7⟩ "id3" 8 (by decide) rfl⟩
